import Mathlib

/-!
Verification of the traffic-generation engine of Oxeigns/Telegram_vc_ddos.

The Python modules `src/attack_engine.py` and `src/utils.py` are shallowly
embedded below. Wall-clock times (Python floats returned by `time.time()`)
are modelled as rationals; the current time is passed explicitly to every
operation that reads the clock. Machine integers of the source are plain
Lean naturals (Python integers are unbounded, so no wrap-around modelling
is needed). Worker threads are modelled by explicit event traces and, for
the operation-cap bound, by a labelled step relation over a worker-pool
state.
-/

/-- Statistics container, from `AttackStats` (src/attack_engine.py lines
20-31). Field defaults mirror the dataclass defaults. -/
structure AttackStats where
  total_requests : Nat := 0
  successful : Nat := 0
  failed : Nat := 0
  start_time : Option ℚ := none
  end_time : Option ℚ := none
  is_running : Bool := false
  target_ip : Option String := none
  target_port : Nat := 80
  threads_active : Int := 0
  deriving Repr, DecidableEq

/-- The `reset` method (lines 33-41): zeroes counters and times, clears the
running flag; `target_ip` and `target_port` are not touched. -/
def AttackStats.reset (s : AttackStats) : AttackStats :=
  { s with
    total_requests := 0
    successful := 0
    failed := 0
    start_time := none
    end_time := none
    is_running := false
    threads_active := 0 }

/-- The `duration` property (lines 43-49). Python tests `if not
self.start_time`, which is true both for `None` and for the float `0.0`;
the embedding keeps that falsiness, and likewise for
`end = self.end_time or time.time()`. -/
def AttackStats.duration (s : AttackStats) (now : ℚ) : ℚ :=
  match s.start_time with
  | none => 0
  | some t =>
    if t = 0 then 0
    else
      let e : ℚ := match s.end_time with
        | none => now
        | some u => if u = 0 then now else u
      e - t

/-- The `success_rate` property (lines 51-56). -/
def AttackStats.success_rate (s : AttackStats) : ℚ :=
  if s.total_requests = 0 then 0
  else ((s.successful : ℚ) / (s.total_requests : ℚ)) * 100

/-- The `rps` property (lines 58-64): requests per second, guarded against
a zero elapsed time. -/
def AttackStats.rps (s : AttackStats) (now : ℚ) : ℚ :=
  let d := s.duration now
  if d = 0 then 0 else (s.total_requests : ℚ) / d

/-- Engine state, from `AttackEngine.__init__` (lines 70-76). The
`_threads` list is represented only through `stats.threads_active`; the
`threading.Event` stop signal is a boolean flag. -/
structure AttackEngine where
  max_requests : Nat
  thread_count : Nat
  timeout : Nat
  stats : AttackStats := {}
  stop_event : Bool := false
  deriving Repr, DecidableEq

/-- A freshly constructed engine (`AttackEngine(max_requests, thread_count,
timeout)`): default stats, stop event clear. -/
def AttackEngine.mk' (max_requests thread_count timeout : Nat) : AttackEngine :=
  { max_requests := max_requests, thread_count := thread_count, timeout := timeout }

/-- The `_check_limits` method (lines 78-86): continue only while the stop
event is clear, the request cap is not reached, and the elapsed duration is
below the timeout. -/
def AttackEngine.check_limits (e : AttackEngine) (now : ℚ) : Bool :=
  if e.stop_event then false
  else if e.max_requests ≤ e.stats.total_requests then false
  else if (e.timeout : ℚ) ≤ e.stats.duration now then false
  else true

/-- One statistics update performed by a worker thread. Each constructor
names the increment block it embeds:
`udpSuccess`/`udpFailure` from `udp_flood` (lines 100-107),
`tcpSuccess`/`tcpFailure` from `tcp_flood` (lines 130-136),
`icmpAttempt ok` from `icmp_flood` (lines 158-163),
`slowSuccess`/`slowFailure` from `slowloris` (lines 202-210),
`workerExit` from the `threads_active -= 1` epilogue every worker runs. -/
inductive StatEvent where
  | udpSuccess
  | udpFailure
  | tcpSuccess
  | tcpFailure
  | icmpAttempt (ok : Bool)
  | slowSuccess
  | slowFailure
  | workerExit
  deriving Repr, DecidableEq

/-- Effect of one worker statistics update on the shared `AttackStats`,
transcribed from the increment blocks cited on each `StatEvent`
constructor. On the UDP/TCP/slowloris failure paths only `failed` is
incremented; `total_requests` is incremented only on their success paths.
The ICMP worker increments `total_requests` on every attempt and then one
of `successful`/`failed`. -/
def applyEvent (s : AttackStats) : StatEvent → AttackStats
  | .udpSuccess =>
    { s with total_requests := s.total_requests + 1, successful := s.successful + 1 }
  | .udpFailure => { s with failed := s.failed + 1 }
  | .tcpSuccess =>
    { s with total_requests := s.total_requests + 1, successful := s.successful + 1 }
  | .tcpFailure => { s with failed := s.failed + 1 }
  | .icmpAttempt ok =>
    if ok then
      { s with total_requests := s.total_requests + 1, successful := s.successful + 1 }
    else
      { s with total_requests := s.total_requests + 1, failed := s.failed + 1 }
  | .slowSuccess =>
    { s with total_requests := s.total_requests + 1, successful := s.successful + 1 }
  | .slowFailure => { s with failed := s.failed + 1 }
  | .workerExit => { s with threads_active := s.threads_active - 1 }

/-- A sequence of worker updates applied to the shared stats, in some
interleaving order (the order among workers is immaterial: each update is
one of the atomic increment blocks). -/
def runEvents (s : AttackStats) (evs : List StatEvent) : AttackStats :=
  evs.foldl applyEvent s

/-- Worker selector tag for the dispatch chain of `start_attack`
(lines 240-251). -/
inductive AttackMethod where
  | udp
  | tcp
  | icmp
  | slowloris
  deriving Repr, DecidableEq

/-- The `attack_func` selection of `start_attack` (lines 240-251): a string
dispatch whose `else` branch falls back to the UDP flood worker. -/
def selectAttackFunc (method : String) : AttackMethod :=
  if method = "udp" then .udp
  else if method = "tcp" then .tcp
  else if method = "icmp" then .icmp
  else if method = "slowloris" then .slowloris
  else .udp

/-- The `start_attack` method (lines 223-267). Returns the boolean result,
the updated engine, and the worker function the spawned threads run
(`none` when the call is refused because a run is already in progress).
When idle it resets the stats, stamps target and start time, sets the
running flag, clears the stop event, and marks `thread_count` threads
active; no target validation of any kind is performed. -/
def AttackEngine.start_attack (e : AttackEngine) (target_ip : String)
    (target_port : Nat) (method : String) (now : ℚ) :
    Bool × AttackEngine × Option AttackMethod :=
  if e.stats.is_running then (false, e, none)
  else
    let s0 := e.stats.reset
    let s1 := { s0 with
      target_ip := some target_ip
      target_port := target_port
      is_running := true
      start_time := some now
      threads_active := (e.thread_count : Int) }
    (true, { e with stats := s1, stop_event := false }, some (selectAttackFunc method))

/-- The dictionary returned by `stop_attack` (lines 280-287). -/
structure StopResult where
  total : Nat
  successful : Nat
  failed : Nat
  duration : ℚ
  success_rate : ℚ
  rps : ℚ
  deriving Repr, DecidableEq

/-- The `stop_attack` method (lines 269-287): sets the stop event, clears
the running flag, stamps `end_time`, and returns the final statistics
dictionary. Thread joining has no effect on the engine state and is
omitted. -/
def AttackEngine.stop_attack (e : AttackEngine) (now : ℚ) :
    StopResult × AttackEngine :=
  let s := { e.stats with is_running := false, end_time := some now }
  let e' := { e with stats := s, stop_event := true }
  (⟨s.total_requests, s.successful, s.failed,
    s.duration now, s.success_rate, s.rps now⟩, e')

/-- The dictionary returned by `get_status` (lines 289-303). -/
structure StatusResult where
  running : Bool
  target : Option String
  port : Nat
  progress : Nat
  max : Nat
  successful : Nat
  failed : Nat
  duration : ℚ
  threads_active : Int
  success_rate : ℚ
  rps : ℚ
  deriving Repr, DecidableEq

/-- The `get_status` method (lines 289-303): reports the current stats
as they stand, with no zeroing and no mutation. -/
def AttackEngine.get_status (e : AttackEngine) (now : ℚ) : StatusResult :=
  ⟨e.stats.is_running, e.stats.target_ip, e.stats.target_port,
   e.stats.total_requests, e.max_requests, e.stats.successful,
   e.stats.failed, e.stats.duration now, e.stats.threads_active,
   e.stats.success_rate, e.stats.rps now⟩

/-! ## Target validation, from src/utils.py lines 32-40.

The function `is_valid_ip` calls the Python standard library
`ipaddress.ip_address` on the stripped string and reports whether it
parses. The embedding below models the IPv4 dotted-quad acceptance of
`ipaddress.ip_address`: exactly four dot-separated octets, each a
nonempty all-digit string with no leading zero and value at most 255.
IPv6 literals, which no claim exercises, are not modelled and are
reported invalid. Note that the check is purely syntactic: 8.8.8.8 and
127.0.0.1 are accepted alike, with no loopback/private-range gating
anywhere in the repository. -/

/-- Whitespace characters removed by Python `str.strip()`. -/
def isSpaceChar (c : Char) : Bool :=
  c = ' ' || c = '\t' || c = '\n' || c = '\r' || c = '\x0b' || c = '\x0c'

/-- Stripping leading and trailing whitespace, modelling `ip.strip()`. -/
def stripChars (l : List Char) : List Char :=
  ((l.dropWhile isSpaceChar).reverse.dropWhile isSpaceChar).reverse

/-- Splitting a character list at every dot, modelling `str.split(".")` as
used by the IPv4 parser of Python ipaddress. -/
def splitOnDot : List Char → List (List Char)
  | [] => [[]]
  | c :: rest =>
    match splitOnDot rest with
    | [] => [[]]
    | g :: gs => if c = '.' then [] :: g :: gs else (c :: g) :: gs

/-- Numeric value of an all-digit octet string. -/
def octetVal (l : List Char) : Nat :=
  l.foldl (fun a c => a * 10 + (c.toNat - '0'.toNat)) 0

/-- Acceptance of one IPv4 octet by Python ipaddress: nonempty, all
digits, no leading zero unless the octet is exactly "0", and value at
most 255. -/
def validOctet (l : List Char) : Bool :=
  !l.isEmpty && l.all Char.isDigit &&
  (l.length = 1 || l.head? ≠ some '0') &&
  octetVal l ≤ 255

/-- The `is_valid_ip` function (src/utils.py lines 32-40) on IPv4 inputs:
strip, then accept exactly when the string is a valid dotted quad. -/
def is_valid_ip (ip : String) : Bool :=
  let parts := splitOnDot (stripChars ip.toList)
  parts.length = 4 && parts.all validOctet

/-! ## Socket resource traces, for the worker cleanup obligation.

Each worker body is abstracted to the sequence of socket open/close
actions it performs, indexed by the iteration that created the socket.
The boolean argument of an iteration records whether the operation
succeeded (no exception) or raised inside connect/send. -/

/-- A socket resource action: opening or closing socket number `id`. -/
inductive ResAction where
  | openRes (id : Nat)
  | closeRes (id : Nat)
  deriving Repr, DecidableEq

/-- Boolean check that every socket opened in a trace is also closed
somewhere in it. -/
def allClosed (tr : List ResAction) : Bool :=
  tr.all fun a =>
    match a with
    | .openRes i => tr.contains (.closeRes i)
    | .closeRes _ => true

/-- Resource trace of `udp_flood` (src/attack_engine.py lines 88-115): one
socket is opened before the loop and closed in the `finally` block, so the
trace is open-then-close for every sequence of iteration outcomes — the
loop body itself touches no socket resources. -/
def udpWorkerResourceTrace (_outcomes : List Bool) : List ResAction :=
  [.openRes 0, .closeRes 0]

/-- Resource trace of one `tcp_flood` iteration (lines 124-137): a fresh
socket is created inside the `try`; on success it is closed at line 129,
but when connect/send raises, control jumps to the `except` clause, which
records the failure and sleeps without ever closing the socket. -/
def tcpIterTrace (i : Nat) (ok : Bool) : List ResAction :=
  if ok then [.openRes i, .closeRes i] else [.openRes i]

/-- Resource trace of a `tcp_flood` run whose iterations have the given
outcomes. -/
def tcpWorkerResourceTrace (outcomes : List Bool) : List ResAction :=
  (outcomes.enum.map fun p => tcpIterTrace p.1 p.2).flatten

/-- Resource trace of one `slowloris` iteration (lines 181-211): on
success the socket is appended to `connections`, the keep-alive loop runs,
and the socket is closed at line 198; when connect or the first send
raises, the socket has not yet been appended, so neither the `except`
clause nor the final cleanup loop (lines 214-218, which only closes
sockets recorded in `connections`) closes it. -/
def slowIterTrace (i : Nat) (ok : Bool) : List ResAction :=
  if ok then [.openRes i, .closeRes i] else [.openRes i]

/-- Resource trace of a `slowloris` run whose iterations have the given
outcomes. -/
def slowWorkerResourceTrace (outcomes : List Bool) : List ResAction :=
  (outcomes.enum.map fun p => slowIterTrace p.1 p.2).flatten

/-! ## Worker-pool abstraction for the operation cap.

Each of the N worker threads is, at any instant, either at the
`_check_limits` guard of its loop (lines 96-98 of `udp_flood`, and the
analogous guards of the other workers) or past the guard with one
operation in flight, about to run the increment block. The guard reads
`stats.total_requests < max_requests` and the increment block later adds
one to `total_requests`; the two are not atomic, so between them other
workers may pass their own guards. The states count workers in each
phase together with the shared counter. -/

/-- Abstract state of a pool of worker threads: the shared
`total_requests` counter, the number of workers sitting at the limit
guard, and the number past the guard with an operation in flight. -/
structure PoolState where
  total : Nat
  checking : Nat
  inflight : Nat
  deriving Repr, DecidableEq

/-- One scheduler step of the worker pool against request cap `maxReq`:
a worker at the guard passes it only while `total < maxReq`
(`_check_limits`, line 82); a worker in flight either completes its
operation and increments the shared counter (lines 100-104) or fails
without incrementing it (lines 105-108), returning to the guard either
way. -/
inductive PoolStep (maxReq : Nat) : PoolState → PoolState → Prop
  | pass {t c f : Nat} : 0 < c → t < maxReq →
      PoolStep maxReq ⟨t, c, f⟩ ⟨t, c - 1, f + 1⟩
  | complete {t c f : Nat} : 0 < f →
      PoolStep maxReq ⟨t, c, f⟩ ⟨t + 1, c + 1, f - 1⟩
  | failOp {t c f : Nat} : 0 < f →
      PoolStep maxReq ⟨t, c, f⟩ ⟨t, c + 1, f - 1⟩

/-- Reachability from the run-start state: counter zero (stats reset at
`start_attack`, line 230), all `N` workers at their guard, none in
flight. -/
def PoolReachable (maxReq N : Nat) (s : PoolState) : Prop :=
  Relation.ReflTransGen (PoolStep maxReq) ⟨0, N, 0⟩ s

/-! ## Event counting helpers for the counter invariant. -/

/-- Events whose increment block adds to both `total_requests` and
`successful`. -/
def isSuccessEvent : StatEvent → Bool
  | .udpSuccess => true
  | .tcpSuccess => true
  | .slowSuccess => true
  | .icmpAttempt ok => ok
  | _ => false

/-- Events whose increment block adds to `failed`. -/
def isFailureEvent : StatEvent → Bool
  | .udpFailure => true
  | .tcpFailure => true
  | .slowFailure => true
  | .icmpAttempt ok => !ok
  | _ => false

/-- Failure events that do NOT touch `total_requests`: the UDP, TCP and
slowloris failure paths increment only `failed`. -/
def isUncountedFailure : StatEvent → Bool
  | .udpFailure => true
  | .tcpFailure => true
  | .slowFailure => true
  | _ => false

/-- ICMP failures: the one failure path that does increment
`total_requests`. -/
def isIcmpFailure : StatEvent → Bool
  | .icmpAttempt ok => !ok
  | _ => false

/-- An engine that ran once and was stopped: started against
127.0.0.1:9000 at time 0, recorded one successful UDP send, and was
stopped at time 1. Its counters are those of the finished run. -/
def staleEngineExample : AttackEngine :=
  let e1 := ((AttackEngine.mk' 1000 10 60).start_attack "127.0.0.1" 9000 "udp" 0).2.1
  let e2 := { e1 with stats := applyEvent e1.stats .udpSuccess }
  (e2.stop_attack 1).2

/-! ## Helper lemmas. -/

/-- Counter decomposition of an event trace: `total_requests` grows by the
successes plus the ICMP failures, `successful` by the successes, and
`failed` by all failures. -/
theorem runEvents_counter_decomposition (evs : List StatEvent) :
    ∀ s : AttackStats,
      (runEvents s evs).total_requests
          = s.total_requests + evs.countP isSuccessEvent + evs.countP isIcmpFailure
        ∧ (runEvents s evs).successful = s.successful + evs.countP isSuccessEvent
        ∧ (runEvents s evs).failed = s.failed + evs.countP isFailureEvent := by
  induction evs with
  | nil => intro s; simp [runEvents]
  | cons e rest ih =>
    intro s
    obtain ⟨h1, h2, h3⟩ := ih (applyEvent s e)
    have hstep : runEvents s (e :: rest) = runEvents (applyEvent s e) rest := rfl
    rw [hstep, h1, h2, h3, List.countP_cons, List.countP_cons, List.countP_cons]
    cases e
    case icmpAttempt ok =>
      cases ok <;>
        simp [applyEvent, isSuccessEvent, isIcmpFailure, isFailureEvent] <;> omega
    all_goals
      simp [applyEvent, isSuccessEvent, isIcmpFailure, isFailureEvent] <;> omega

/-- Every failure is either an uncounted (UDP/TCP/slowloris) failure or an
ICMP failure. -/
theorem countP_failure_split (evs : List StatEvent) :
    evs.countP isFailureEvent
      = evs.countP isUncountedFailure + evs.countP isIcmpFailure := by
  induction evs with
  | nil => simp
  | cons e rest ih =>
    rw [List.countP_cons, List.countP_cons, List.countP_cons, ih]
    cases e
    case icmpAttempt ok =>
      cases ok <;> simp [isFailureEvent, isUncountedFailure, isIcmpFailure] <;> omega
    all_goals
      simp [isFailureEvent, isUncountedFailure, isIcmpFailure] <;> omega

/-- No worker statistics update touches the running flag: the flag changes
only through `start_attack` and `stop_attack`. -/
theorem runEvents_is_running (evs : List StatEvent) :
    ∀ s : AttackStats, (runEvents s evs).is_running = s.is_running := by
  induction evs with
  | nil => intro s; rfl
  | cons e rest ih =>
    intro s
    have hstep : runEvents s (e :: rest) = runEvents (applyEvent s e) rest := rfl
    rw [hstep, ih]
    cases e
    case icmpAttempt ok => cases ok <;> rfl
    all_goals rfl

/-- Inductive invariant of the worker pool: the pool size is conserved and
the shared counter plus the in-flight operations never exceeds the cap
plus the pool size. -/
theorem poolReachable_invariant {M N : Nat} {s : PoolState}
    (h : PoolReachable M N s) :
    s.checking + s.inflight = N ∧ s.total + s.inflight ≤ M + N := by
  induction h with
  | refl => exact ⟨by simp, by simp⟩
  | tail _ step ih =>
    obtain ⟨ih1, ih2⟩ := ih
    cases step with
    | pass hc ht => exact ⟨by simp_all; omega, by simp_all; omega⟩
    | complete hf => exact ⟨by simp_all; omega, by simp_all; omega⟩
    | failOp hf => exact ⟨by simp_all; omega, by simp_all; omega⟩

/-! ## Claim theorems. -/

/-- C1 (counterexample): the claimed invariant `total_requests ==
successful + failed` is false on the code. After a started run records one
failed UDP send (the `except socket.error` path of `udp_flood`, which
increments only `failed`), the snapshot has `total_requests = 0` but
`successful + failed = 1`. -/
theorem counters_mismatch_on_udp_failure :
    ¬ ((runEvents (((AttackEngine.mk' 1000 10 60).start_attack "127.0.0.1" 9000 "udp" 1).2.1).stats
          [.udpFailure]).total_requests
        = (runEvents (((AttackEngine.mk' 1000 10 60).start_attack "127.0.0.1" 9000 "udp" 1).2.1).stats
            [.udpFailure]).successful
          + (runEvents (((AttackEngine.mk' 1000 10 60).start_attack "127.0.0.1" 9000 "udp" 1).2.1).stats
            [.udpFailure]).failed) := by
  decide

/-- C1 (amended): at every snapshot of a started run,
`total_requests + (number of UDP/TCP/slowloris failures) = successful +
failed`; the claimed equality `total_requests = successful + failed` holds
exactly when no UDP/TCP/slowloris operation has failed, because those
failure paths increment `failed` without incrementing `total_requests`
(only the ICMP worker counts its failures in `total_requests`). -/
theorem total_plus_uncounted_failures_eq_successful_plus_failed
    (e : AttackEngine) (ip : String) (port : Nat) (method : String) (now : ℚ)
    (evs : List StatEvent) (h : e.stats.is_running = false) :
    (runEvents ((e.start_attack ip port method now).2.1).stats evs).total_requests
        + evs.countP isUncountedFailure
      = (runEvents ((e.start_attack ip port method now).2.1).stats evs).successful
        + (runEvents ((e.start_attack ip port method now).2.1).stats evs).failed := by
  obtain ⟨h1, h2, h3⟩ :=
    runEvents_counter_decomposition evs ((e.start_attack ip port method now).2.1).stats
  have ht : ((e.start_attack ip port method now).2.1).stats.total_requests = 0 := by
    simp [AttackEngine.start_attack, h, AttackStats.reset]
  have hsu : ((e.start_attack ip port method now).2.1).stats.successful = 0 := by
    simp [AttackEngine.start_attack, h, AttackStats.reset]
  have hf : ((e.start_attack ip port method now).2.1).stats.failed = 0 := by
    simp [AttackEngine.start_attack, h, AttackStats.reset]
  rw [h1, h2, h3, ht, hsu, hf, countP_failure_split]
  omega

/-- Witness for the amended C1 theorem at a concrete run: one UDP success
followed by one UDP failure. -/
theorem total_plus_uncounted_failures_witness :
    (AttackEngine.mk' 1000 10 60).stats.is_running = false
      ∧ ((runEvents (((AttackEngine.mk' 1000 10 60).start_attack "127.0.0.1" 9000 "udp" 1).2.1).stats
            [.udpSuccess, .udpFailure]).total_requests
          + [StatEvent.udpSuccess, StatEvent.udpFailure].countP isUncountedFailure
        = (runEvents (((AttackEngine.mk' 1000 10 60).start_attack "127.0.0.1" 9000 "udp" 1).2.1).stats
            [.udpSuccess, .udpFailure]).successful
          + (runEvents (((AttackEngine.mk' 1000 10 60).start_attack "127.0.0.1" 9000 "udp" 1).2.1).stats
            [.udpSuccess, .udpFailure]).failed) :=
  ⟨rfl, total_plus_uncounted_failures_eq_successful_plus_failed
    (AttackEngine.mk' 1000 10 60) "127.0.0.1" 9000 "udp" 1
    [.udpSuccess, .udpFailure] rfl⟩

/-- C2 (counterexample): the claim that in default mode the globally
routable target 8.8.8.8:53 is rejected before any worker is spawned is
false: `is_valid_ip` accepts 8.8.8.8 (it is purely syntactic) and
`start_attack` on an idle engine returns true and spawns UDP workers
against it. -/
theorem global_target_accepted :
    is_valid_ip "8.8.8.8" = true
      ∧ ((AttackEngine.mk' 1000 10 60).start_attack "8.8.8.8" 53 "udp" 1).1 = true
      ∧ ((AttackEngine.mk' 1000 10 60).start_attack "8.8.8.8" 53 "udp" 1).2.2
          = some AttackMethod.udp := by
  decide

/-- C2 (amended): the repository performs only syntactic target
validation. `start_attack` itself validates nothing and accepts any
(host, port) pair whenever the engine is idle; the bot-layer check
`is_valid_ip` accepts every well-formed IP literal, so 8.8.8.8 is
accepted exactly like 127.0.0.1 and 192.168.1.5 — there is no
loopback/private/link-local gating anywhere. -/
theorem start_attack_accepts_any_target
    (e : AttackEngine) (ip : String) (port : Nat) (method : String) (now : ℚ)
    (h : e.stats.is_running = false) :
    (e.start_attack ip port method now).1 = true
      ∧ is_valid_ip "8.8.8.8" = true
      ∧ is_valid_ip "127.0.0.1" = true
      ∧ is_valid_ip "192.168.1.5" = true :=
  ⟨by simp [AttackEngine.start_attack, h], by decide, by decide, by decide⟩

/-- Witness for the amended C2 theorem: a fresh idle engine accepts the
globally routable target 8.8.8.8:53. -/
theorem start_attack_accepts_any_target_witness :
    (AttackEngine.mk' 1000 10 60).stats.is_running = false
      ∧ (((AttackEngine.mk' 1000 10 60).start_attack "8.8.8.8" 53 "udp" 0).1 = true
        ∧ is_valid_ip "8.8.8.8" = true
        ∧ is_valid_ip "127.0.0.1" = true
        ∧ is_valid_ip "192.168.1.5" = true) :=
  ⟨rfl, start_attack_accepts_any_target (AttackEngine.mk' 1000 10 60) "8.8.8.8" 53 "udp" 0 rfl⟩

/-- C3 (counterexample): the claim that after the max duration elapses the
status snapshot reports `running == false` is false. For an engine with
timeout 2 started at time 1 and never explicitly stopped, at time 100 the
limit check already fails (so every worker has exited its loop), yet
`get_status` still reports `running = true`: no deadline watcher ever
clears the flag. -/
theorem running_flag_true_after_timeout :
    ((AttackEngine.mk' 1000 10 2).start_attack "127.0.0.1" 9000 "udp" 1).2.1.check_limits 100
        = false
      ∧ (((AttackEngine.mk' 1000 10 2).start_attack "127.0.0.1" 9000 "udp" 1).2.1.get_status
          100).running = true := by
  constructor
  · simp [AttackEngine.check_limits, AttackEngine.start_attack, AttackEngine.mk',
      AttackStats.reset, AttackStats.duration]
    norm_num
  · rfl

/-- C3 (amended): once the elapsed time reaches the timeout, the limit
check fails, so every worker exits its loop and no further operations are
attempted; but worker updates never change the running flag, `get_status`
merely echoes it, and it becomes false only through an explicit
`stop_attack` call. -/
theorem timeout_stops_workers_but_not_running_flag
    (e : AttackEngine) (t now : ℚ)
    (hst : e.stats.start_time = some t) (ht0 : t ≠ 0)
    (hend : e.stats.end_time = none)
    (helapsed : (e.timeout : ℚ) ≤ now - t) :
    e.check_limits now = false
      ∧ (∀ evs, (runEvents e.stats evs).is_running = e.stats.is_running)
      ∧ (e.get_status now).running = e.stats.is_running
      ∧ ∀ now2 later : ℚ, (((e.stop_attack now2).2).get_status later).running = false := by
  have hd : e.stats.duration now = now - t := by
    simp [AttackStats.duration, hst, hend, ht0]
  refine ⟨?_, fun evs => runEvents_is_running evs e.stats, rfl, fun now2 later => rfl⟩
  by_cases h1 : e.stop_event
  · simp [AttackEngine.check_limits, h1]
  · by_cases h2 : e.max_requests ≤ e.stats.total_requests
    · simp [AttackEngine.check_limits, h1, h2]
    · simp [AttackEngine.check_limits, h1, h2, hd, helapsed]

/-- Witness for the amended C3 theorem: engine with timeout 2 started at
time 1, observed at time 3. -/
theorem timeout_stops_workers_witness :
    (((AttackEngine.mk' 1000 10 2).start_attack "127.0.0.1" 9000 "udp" 1).2.1.stats.start_time
          = some 1
        ∧ (1 : ℚ) ≠ 0
        ∧ ((AttackEngine.mk' 1000 10 2).start_attack "127.0.0.1" 9000 "udp" 1).2.1.stats.end_time
          = none
        ∧ (2 : ℚ) ≤ 3 - 1)
      ∧ (((AttackEngine.mk' 1000 10 2).start_attack "127.0.0.1" 9000 "udp" 1).2.1.check_limits 3
            = false
        ∧ (∀ evs, (runEvents ((AttackEngine.mk' 1000 10 2).start_attack "127.0.0.1" 9000 "udp"
              1).2.1.stats evs).is_running
            = ((AttackEngine.mk' 1000 10 2).start_attack "127.0.0.1" 9000 "udp" 1).2.1.stats.is_running)
        ∧ ((((AttackEngine.mk' 1000 10 2).start_attack "127.0.0.1" 9000 "udp" 1).2.1.get_status
            3).running
          = ((AttackEngine.mk' 1000 10 2).start_attack "127.0.0.1" 9000 "udp" 1).2.1.stats.is_running)
        ∧ ∀ now2 later : ℚ,
            (((((AttackEngine.mk' 1000 10 2).start_attack "127.0.0.1" 9000 "udp"
                1).2.1.stop_attack now2).2).get_status later).running = false) :=
  ⟨⟨rfl, by norm_num, rfl, by norm_num⟩,
    timeout_stops_workers_but_not_running_flag
      ((AttackEngine.mk' 1000 10 2).start_attack "127.0.0.1" 9000 "udp" 1).2.1
      1 3 rfl (by norm_num) rfl
      (by norm_num [AttackEngine.start_attack, AttackEngine.mk'])⟩

/-- C4 (confirmed): calling `start_attack` while a run is in progress
returns false, leaves the engine — in particular every field of the shared
stats — unchanged, and spawns no workers. -/
theorem start_attack_noop_when_running
    (e : AttackEngine) (ip : String) (port : Nat) (method : String) (now : ℚ)
    (h : e.stats.is_running = true) :
    e.start_attack ip port method now = (false, e, none) := by
  simp [AttackEngine.start_attack, h]

/-- Witness for C4: a concrete engine whose running flag is set refuses a
second start and is returned unchanged. -/
theorem start_attack_noop_when_running_witness :
    ({ AttackEngine.mk' 5 2 60 with stats := { is_running := true } } : AttackEngine).stats.is_running
        = true
      ∧ AttackEngine.start_attack
          { AttackEngine.mk' 5 2 60 with stats := { is_running := true } }
          "127.0.0.1" 9000 "udp" 0
        = (false, { AttackEngine.mk' 5 2 60 with stats := { is_running := true } }, none) :=
  ⟨rfl, start_attack_noop_when_running
    { AttackEngine.mk' 5 2 60 with stats := { is_running := true } }
    "127.0.0.1" 9000 "udp" 0 rfl⟩

/-- C5 (code bug): the claim that every worker closes every socket on every
exit path is the documented intent (the UDP worker does it with
try/finally), but `tcp_flood` and `slowloris` violate it: an iteration
whose connect/send raises leaves its socket unclosed, since the `except`
clause performs no close and, in `slowloris`, a failed socket was never
registered in `connections` for the final cleanup. Evaluated at a
one-iteration run that fails: the socket is opened and never closed. -/
theorem tcp_worker_leaks_socket_on_error :
    tcpWorkerResourceTrace [false] = [.openRes 0]
      ∧ allClosed (tcpWorkerResourceTrace [false]) = false
      ∧ allClosed (slowWorkerResourceTrace [false]) = false
      ∧ allClosed (udpWorkerResourceTrace [false]) = true
      ∧ allClosed (tcpWorkerResourceTrace [true]) = true := by
  decide

/-- C6 (confirmed): in every state reachable by the worker pool of a run
with request cap M and N threads, the shared `total_requests` counter
never exceeds M + N: each worker holds at most one in-flight operation
past the `_check_limits` guard, and the guard refuses once the counter
reaches M. -/
theorem total_requests_le_cap_plus_threads {M N : Nat} {s : PoolState}
    (h : PoolReachable M N s) : s.total ≤ M + N := by
  have := poolReachable_invariant h
  omega

/-- Witness for C6: with cap 100 and 50 threads, the state reached by one
guard pass followed by one completed operation has counter 1 ≤ 150. -/
theorem total_requests_le_cap_plus_threads_witness :
    PoolReachable 100 50 ⟨1, 50, 0⟩ ∧ (PoolState.mk 1 50 0).total ≤ 100 + 50 := by
  have h : PoolReachable 100 50 ⟨1, 50, 0⟩ :=
    Relation.ReflTransGen.tail
      (Relation.ReflTransGen.tail Relation.ReflTransGen.refl
        (PoolStep.pass (by decide) (by decide)))
      (PoolStep.complete (by decide))
  exact ⟨h, total_requests_le_cap_plus_threads h⟩

/-- C7 (confirmed): whenever the elapsed duration is non-negative (the
clock has not run backwards since the run started), the reported rate is a
well-defined, non-negative rational, and the zero-elapsed snapshot taken
immediately at run start yields rate 0 — the division is guarded and never
has a zero divisor. -/
theorem rps_nonneg_and_zero_guard (s : AttackStats) (now : ℚ)
    (h : 0 ≤ s.duration now) :
    0 ≤ s.rps now ∧ (s.duration now = 0 → s.rps now = 0) := by
  constructor
  · by_cases hd : s.duration now = 0
    · simp [AttackStats.rps, hd]
    · simp only [AttackStats.rps]
      rw [if_neg hd]
      exact div_nonneg (Nat.cast_nonneg _) h
  · intro hd
    simp [AttackStats.rps, hd]

/-- Witness for C7 at the idle snapshot: duration 0, rate 0. -/
theorem rps_nonneg_witness :
    0 ≤ AttackStats.duration {} 0
      ∧ (0 ≤ AttackStats.rps {} 0
        ∧ (AttackStats.duration {} 0 = 0 → AttackStats.rps {} 0 = 0)) :=
  ⟨le_refl 0, rps_nonneg_and_zero_guard {} 0 (le_refl 0)⟩

/-- C8 (confirmed): `stop_attack` on a never-started engine returns the
all-zero statistics dictionary — total, successful, failed, duration,
success rate and rps all zero — with no error. -/
theorem stop_attack_idle_all_zero (M T TO : Nat) (now : ℚ) :
    ((AttackEngine.mk' M T TO).stop_attack now).1 = ⟨0, 0, 0, 0, 0, 0⟩ := rfl

/-- C9 (counterexample): the claim that `get_status` on an idle engine
returns a zeroed snapshot is false after a run: the engine that ran once
(one successful UDP send) and was stopped is idle (`running = false`), yet
`get_status` still reports the stale counters of the finished run. -/
theorem get_status_reports_stale_counters :
    staleEngineExample.stats.is_running = false
      ∧ (staleEngineExample.get_status 2).running = false
      ∧ (staleEngineExample.get_status 2).progress = 1
      ∧ (staleEngineExample.get_status 2).successful = 1 :=
  ⟨rfl, rfl, rfl, rfl⟩

/-- C9 (amended): `get_status` is safe to call at any time and echoes the
current stats: on a never-started engine the snapshot is zeroed, while
after `stop_attack` it reports `running = false` together with the final
counters of the last run — stale values persist until the next
`start_attack` resets them. -/
theorem get_status_zero_fresh_and_stale_after_stop :
    (∀ (M T TO : Nat) (now : ℚ),
        (AttackEngine.mk' M T TO).get_status now
          = ⟨false, none, 80, 0, M, 0, 0, 0, 0, 0, 0⟩)
      ∧ ∀ (e : AttackEngine) (now later : ℚ),
          (((e.stop_attack now).2).get_status later).running = false
            ∧ (((e.stop_attack now).2).get_status later).progress = e.stats.total_requests
            ∧ (((e.stop_attack now).2).get_status later).successful = e.stats.successful
            ∧ (((e.stop_attack now).2).get_status later).failed = e.stats.failed :=
  ⟨fun _ _ _ _ => rfl, fun _ _ _ => ⟨rfl, rfl, rfl, rfl⟩⟩

/-- C10 (confirmed): any method string other than "udp", "tcp", "icmp" and
"slowloris" is neither rejected nor an error: the dispatch falls through
to the UDP flood worker and `start_attack` on an idle engine still returns
true. -/
theorem unknown_method_dispatches_udp
    (m : String) (h1 : m ≠ "udp") (h2 : m ≠ "tcp") (h3 : m ≠ "icmp")
    (h4 : m ≠ "slowloris") (e : AttackEngine) (ip : String) (port : Nat) (now : ℚ)
    (hrun : e.stats.is_running = false) :
    selectAttackFunc m = .udp
      ∧ (e.start_attack ip port m now).1 = true
      ∧ (e.start_attack ip port m now).2.2 = some AttackMethod.udp := by
  have hs : selectAttackFunc m = .udp := by
    simp [selectAttackFunc, h1, h2, h3, h4]
  exact ⟨hs, by simp [AttackEngine.start_attack, hrun],
    by simp [AttackEngine.start_attack, hrun, hs]⟩

/-- Witness for C10 at the method string "auto" used by the bot layer. -/
theorem unknown_method_dispatches_udp_witness :
    ("auto" ≠ "udp" ∧ "auto" ≠ "tcp" ∧ "auto" ≠ "icmp" ∧ "auto" ≠ "slowloris"
        ∧ (AttackEngine.mk' 100 4 60).stats.is_running = false)
      ∧ (selectAttackFunc "auto" = .udp
        ∧ ((AttackEngine.mk' 100 4 60).start_attack "127.0.0.1" 9000 "auto" 0).1 = true
        ∧ ((AttackEngine.mk' 100 4 60).start_attack "127.0.0.1" 9000 "auto" 0).2.2
            = some AttackMethod.udp) :=
  ⟨⟨by decide, by decide, by decide, by decide, rfl⟩,
    unknown_method_dispatches_udp "auto" (by decide) (by decide) (by decide) (by decide)
      (AttackEngine.mk' 100 4 60) "127.0.0.1" 9000 0 rfl⟩
